import Mathlib

/-!
Shallow embedding of the V4L2 memory-to-memory codec framework
(`drivers/media/v4l2-core/v4l2-mem2mem-codec.c` together with
`include/media/v4l2-mem2mem-codec.h`).

Conventions used throughout:
* C structs become Lean structures of the same name; a nullable pointer
  becomes an `Option`; an array together with its count becomes a `List`.
* A C function returning `int` (0 on success, a negative errno on failure)
  becomes a function returning `Int`; the errno constants below are the
  positive Linux codes and a failure is written `-EINVAL` etc., as in C.
* A function that may dereference a null pointer or index past the end of a
  table returns `Option`: `none` models the undefined behaviour, `some r`
  the defined result.
* The driver callbacks of a coded format (`ops`) are modelled by their
  observable behaviour: `adjust_fmt` as a function from the candidate format
  to the returned status and the adjusted format (its context argument is
  opaque driver state the core never reads), `start` and `run` by the status
  they return.
* The external collaborators (videobuf2 queues, the m2m scheduler, the
  control-handler framework) appear as the small pieces of state the core
  reads and writes through them; a definition standing in for collaborator
  code that lives outside this repository carries a `Modelled from the
  spec:` note.
-/

/-- Linux errno codes used by the codec core; the C code returns their
negations, written `-EINVAL` and so on below. -/
def EINVAL : Int := 22

/-- Errno: no such entry; returned as `-ENOENT`. -/
def ENOENT : Int := 2

/-- Errno: device or resource busy; returned as `-EBUSY`. -/
def EBUSY : Int := 16

/-- Constant `V4L2_FIELD_NONE` of videodev2.h (progressive, non-interlaced). -/
def V4L2_FIELD_NONE : Nat := 1

/-- Constant `V4L2_COLORSPACE_JPEG` of videodev2.h. -/
def V4L2_COLORSPACE_JPEG : Nat := 7

/-- Constant `V4L2_YCBCR_ENC_DEFAULT` of videodev2.h. -/
def V4L2_YCBCR_ENC_DEFAULT : Nat := 0

/-- Constant `V4L2_QUANTIZATION_DEFAULT` of videodev2.h. -/
def V4L2_QUANTIZATION_DEFAULT : Nat := 0

/-- Constant `V4L2_XFER_FUNC_DEFAULT` of videodev2.h. -/
def V4L2_XFER_FUNC_DEFAULT : Nat := 0

/-- Constant `V4L2_FRMSIZE_TYPE_STEPWISE` of videodev2.h. -/
def V4L2_FRMSIZE_TYPE_STEPWISE : Nat := 3

/-- The `v4l2_buf_type` values the codec core distinguishes; `invalid`
stands for the zero value a memset leaves behind before a type is chosen. -/
inductive v4l2_buf_type where
  | invalid
  | videoCapture
  | videoOutput
  | videoCaptureMplane
  | videoOutputMplane
deriving DecidableEq

/-- Macro `V4L2_TYPE_IS_OUTPUT` of videodev2.h: whether a buffer type is an
output (application-to-device) queue type. -/
def V4L2_TYPE_IS_OUTPUT : v4l2_buf_type → Bool
  | .videoOutput => true
  | .videoOutputMplane => true
  | _ => false

/-- Macro `V4L2_TYPE_IS_MULTIPLANAR` of videodev2.h. -/
def V4L2_TYPE_IS_MULTIPLANAR : v4l2_buf_type → Bool
  | .videoCaptureMplane => true
  | .videoOutputMplane => true
  | _ => false

/-- The pixel-format payload of a `v4l2_format`. The C type is a union of
`v4l2_pix_format` (single-planar) and `v4l2_pix_format_mplane`; every access
in the codec core writes or reads the same logical field on whichever side
matches the buffer type, so the two views are embedded as one record holding
the union of the logical fields. -/
structure v4l2_pix_format where
  width : Nat
  height : Nat
  pixelformat : Nat
  field : Nat
  colorspace : Nat
  ycbcr_enc : Nat
  quantization : Nat
  xfer_func : Nat
  num_planes : Nat
  bytesperline : Nat
  sizeimage : Nat
deriving DecidableEq

/-- The all-zero pixel format a `memset(f, 0, sizeof(*f))` produces. -/
def v4l2_pix_format.zero : v4l2_pix_format :=
  { width := 0, height := 0, pixelformat := 0, field := 0, colorspace := 0
    ycbcr_enc := 0, quantization := 0, xfer_func := 0, num_planes := 0
    bytesperline := 0, sizeimage := 0 }

/-- Struct `v4l2_format`: a buffer type plus the pixel-format payload. -/
structure v4l2_format where
  type : v4l2_buf_type
  pix : v4l2_pix_format
deriving DecidableEq

/-- Struct `v4l2_frmsize_stepwise` of videodev2.h. -/
structure v4l2_frmsize_stepwise where
  min_width : Nat
  max_width : Nat
  step_width : Nat
  min_height : Nat
  max_height : Nat
  step_height : Nat
deriving DecidableEq

/-- Struct `v4l2_frmsizeenum` of videodev2.h, restricted to the fields the
codec core touches. -/
structure v4l2_frmsizeenum where
  index : Nat
  pixel_format : Nat
  type : Nat
  stepwise : v4l2_frmsize_stepwise
deriving DecidableEq

/-- Struct `v4l2_ctrl_config`, restricted to the control id, the only field
the codec core reads. -/
structure v4l2_ctrl_config where
  id : Nat
deriving DecidableEq

/-- Struct `v4l2_m2m_codec_ctrl_desc` of the framework header. -/
structure v4l2_m2m_codec_ctrl_desc where
  per_request : Bool
  mandatory : Bool
  cfg : v4l2_ctrl_config
deriving DecidableEq

/-- Struct `v4l2_m2m_codec_ctrls`: the `ctrls` array together with
`num_ctrls`. -/
structure v4l2_m2m_codec_ctrls where
  ctrls : List v4l2_m2m_codec_ctrl_desc
deriving DecidableEq

/-- Struct `v4l2_m2m_codec_decoded_fmt_desc` (the `priv` driver data is
opaque to the core and omitted). -/
structure v4l2_m2m_codec_decoded_fmt_desc where
  fourcc : Nat
deriving DecidableEq

/-- Struct `v4l2_m2m_codec_coded_fmt_ops`: the per-format driver callbacks,
modelled by their observable behaviour. `adjust_fmt` maps the candidate
format to the returned status and the adjusted format; `start` and `run`
are the statuses those callbacks return; `stop` returns void. -/
structure v4l2_m2m_codec_coded_fmt_ops where
  adjust_fmt : Option (v4l2_format → Int × v4l2_format)
  start : Option Int
  stop : Option Unit
  run : Option Int

/-- Struct `v4l2_m2m_codec_coded_fmt_desc` (driver `priv` omitted). The
`frmsize`, `ctrls` and `ops` pointers are all nullable in C and so are
`Option` here. -/
structure v4l2_m2m_codec_coded_fmt_desc where
  fourcc : Nat
  requires_requests : Bool
  frmsize : Option v4l2_frmsize_stepwise
  ctrls : Option v4l2_m2m_codec_ctrls
  ops : Option v4l2_m2m_codec_coded_fmt_ops

/-- Struct `v4l2_m2m_codec_caps`: the format tables with their counts. -/
structure v4l2_m2m_codec_caps where
  coded_fmts : List v4l2_m2m_codec_coded_fmt_desc
  decoded_fmts : List v4l2_m2m_codec_decoded_fmt_desc

/-- Enum `v4l2_m2m_codec_type`. -/
inductive v4l2_m2m_codec_type where
  | V4L2_M2M_ENCODER
  | V4L2_M2M_DECODER
deriving DecidableEq

/-- Struct `v4l2_m2m_codec`, restricted to the state the claims touch.
`mplane` records whether the device's ioctl table provides the multi-planar
get-format operation (`vidioc_g_fmt_vid_cap_mplane`), the test the C code
uses to pick the single- or multi-planar branch. -/
structure v4l2_m2m_codec where
  type : v4l2_m2m_codec_type
  caps : v4l2_m2m_codec_caps
  mplane : Bool

/-- Struct `v4l2_m2m_codec_ctx`: per-session negotiated state. The two
`*_fmt_desc` fields are nullable pointers into the capability tables. -/
structure v4l2_m2m_codec_ctx where
  codec : v4l2_m2m_codec
  coded_fmt : v4l2_format
  decoded_fmt : v4l2_format
  coded_fmt_desc : Option v4l2_m2m_codec_coded_fmt_desc
  decoded_fmt_desc : Option v4l2_m2m_codec_decoded_fmt_desc

/-- The slice of a videobuf2 queue the codec core reads and writes:
`busy` is what `vb2_is_busy` reports (buffers are allocated against the
queue), `requires_requests` the flag `v4l2_m2m_codec_s_fmt` updates. -/
structure vb2_queue where
  busy : Bool
  requires_requests : Bool
deriving DecidableEq

/-- The slice of the m2m context the codec core touches: the queue of each
plane (`out_q_ctx.q` and `cap_q_ctx.q` in C). -/
structure v4l2_m2m_ctx where
  out_q_ctx : vb2_queue
  cap_q_ctx : vb2_queue
deriving DecidableEq

/-- A codec context together with its m2m queues: the state a set-format
call can read and write. -/
structure CodecState where
  ctx : v4l2_m2m_codec_ctx
  m2m : v4l2_m2m_ctx

/-- Function `v4l2_m2m_codec_find_coded_fmt_desc`: linear first-match scan of
the coded-format table by 4CC. -/
def v4l2_m2m_codec_find_coded_fmt_desc (codec : v4l2_m2m_codec) (fourcc : Nat) :
    Option v4l2_m2m_codec_coded_fmt_desc :=
  codec.caps.coded_fmts.find? (fun d => d.fourcc == fourcc)

/-- Modelled from the spec: `v4l2_apply_frmsize_constraints` lives in
v4l2-common.c, outside this repository's sources. The spec says a size
constraint is applied to a candidate's width and height; it is modelled as
clamping each into the constraint's min/max window (the step rounding of the
collaborator never moves a value out of that window and is immaterial to the
claims). -/
def v4l2_apply_frmsize_constraints (width height : Nat)
    (z : v4l2_frmsize_stepwise) : Nat × Nat :=
  (max z.min_width (min width z.max_width),
   max z.min_height (min height z.max_height))

/-- Static function `v4l2_m2m_codec_apply_frmsize_constraints`: a null
constraint leaves the format alone, otherwise the collaborator clamp is
applied to the width/height of whichever union view the type selects (the
same logical fields here). -/
def v4l2_m2m_codec_apply_frmsize_constraints (f : v4l2_format)
    (frmsize : Option v4l2_frmsize_stepwise) : v4l2_format :=
  match frmsize with
  | none => f
  | some z =>
    let wh := v4l2_apply_frmsize_constraints f.pix.width f.pix.height z
    { f with pix := { f.pix with width := wh.1, height := wh.2 } }

/-- Modelled from the spec: `v4l2_fill_pixfmt` / `v4l2_fill_pixfmt_mp` live
in v4l2-common.c, outside this repository's sources. The spec says the
decoded-plane paths fill in the standard per-pixel-format derived fields
(stride, plane sizes) for the given pixel format, width and height; the
collaborator stores the three arguments and derives the rest from them. -/
def v4l2_fill_pixfmt (f : v4l2_format) (pixelformat width height : Nat) :
    v4l2_format :=
  { f with pix := { f.pix with
      pixelformat := pixelformat, width := width, height := height,
      num_planes := 1, bytesperline := width, sizeimage := width * height } }

/-- Static function `v4l2_m2m_codec_reset_fmt`: zero the format, then set
the 4CC, the progressive field order and the default colorimetry. The C
function writes the same logical fields on whichever union view the device's
ioctl table selects; the caller assigns `f->type` afterwards, so it stays at
the zero (`invalid`) value here. -/
def v4l2_m2m_codec_reset_fmt (fourcc : Nat) : v4l2_format :=
  { type := .invalid
    pix := { v4l2_pix_format.zero with
      pixelformat := fourcc
      field := V4L2_FIELD_NONE
      colorspace := V4L2_COLORSPACE_JPEG
      ycbcr_enc := V4L2_YCBCR_ENC_DEFAULT
      quantization := V4L2_QUANTIZATION_DEFAULT
      xfer_func := V4L2_XFER_FUNC_DEFAULT } }

/-- The buffer type `v4l2_m2m_codec_reset_coded_fmt` assigns to the coded
format: the output queue of a decoder, the capture queue of an encoder, in
the geometry the device advertises. -/
def coded_buf_type (codec : v4l2_m2m_codec) : v4l2_buf_type :=
  if codec.mplane then
    if codec.type == .V4L2_M2M_DECODER then .videoOutputMplane
    else .videoCaptureMplane
  else
    if codec.type == .V4L2_M2M_DECODER then .videoOutput
    else .videoCapture

/-- The buffer type `v4l2_m2m_codec_reset_decoded_fmt` assigns to the
decoded format: the capture queue of a decoder, the output queue of an
encoder. -/
def decoded_buf_type (codec : v4l2_m2m_codec) : v4l2_buf_type :=
  if codec.mplane then
    if codec.type == .V4L2_M2M_DECODER then .videoCaptureMplane
    else .videoOutputMplane
  else
    if codec.type == .V4L2_M2M_DECODER then .videoCapture
    else .videoOutput

/-- Static function `v4l2_m2m_codec_reset_coded_fmt`: select
`coded_fmts[0]` as the active coded descriptor, rebuild the coded format
from it (default width/height from the size constraint when present) and
run the format's `adjust_fmt` hook, whose return value this path ignores.
`none` models the undefined behaviour when the coded table is empty
(`coded_fmts[0]` out of bounds) or the descriptor's `ops` pointer is null
(`desc->ops->adjust_fmt` dereferences it unguarded); `v4l2_m2m_codec_init`
rejects both shapes. -/
def v4l2_m2m_codec_reset_coded_fmt (ctx : v4l2_m2m_codec_ctx) :
    Option v4l2_m2m_codec_ctx :=
  match ctx.codec.caps.coded_fmts.head? with
  | none => none
  | some desc =>
    match desc.ops with
    | none => none
    | some ops =>
      let f0 := v4l2_m2m_codec_reset_fmt desc.fourcc
      let f1 := { f0 with type := coded_buf_type ctx.codec }
      let f2 := match desc.frmsize with
        | some z =>
          { f1 with pix := { f1.pix with
              width := z.min_width, height := z.min_height } }
        | none => f1
      let f3 := match ops.adjust_fmt with
        | some adj => (adj f2).2
        | none => f2
      some { ctx with coded_fmt_desc := some desc, coded_fmt := f3 }

/-- Function `v4l2_m2m_codec_reset_decoded_fmt`: resolve the coded format
first when absent, then rebuild the decoded format from `decoded_fmts[0]`,
apply the coded descriptor's size constraint and fill in the derived
per-pixel-format fields. `none` models the undefined behaviour inherited
from the coded reset or an empty decoded table. -/
def v4l2_m2m_codec_reset_decoded_fmt (ctx : v4l2_m2m_codec_ctx) :
    Option v4l2_m2m_codec_ctx :=
  match (if ctx.coded_fmt_desc.isNone
         then v4l2_m2m_codec_reset_coded_fmt ctx else some ctx) with
  | none => none
  | some ctx =>
    match ctx.coded_fmt_desc with
    | none => none
    | some coded_desc =>
      match ctx.codec.caps.decoded_fmts.head? with
      | none => none
      | some ddesc =>
        let f0 := v4l2_m2m_codec_reset_fmt ddesc.fourcc
        let f1 := { f0 with type := decoded_buf_type ctx.codec }
        let f2 := match coded_desc.frmsize with
          | some z =>
            { f1 with pix := { f1.pix with
                width := z.min_width, height := z.min_height } }
          | none => f1
        let f3 := v4l2_fill_pixfmt f2 f2.pix.pixelformat f2.pix.width
                    f2.pix.height
        some { ctx with decoded_fmt := f3, decoded_fmt_desc := some ddesc }

/-- The field-forcing step of `v4l2_m2m_codec_try_coded_fmt`: the field
order is forced progressive, and in the multi-planar view the plane count
is forced to 1 since coded data is never split across memory planes. -/
def coded_fmt_force_fields (f : v4l2_format) : v4l2_format :=
  if !(V4L2_TYPE_IS_MULTIPLANAR f.type) then
    { f with pix := { f.pix with field := V4L2_FIELD_NONE } }
  else
    { f with pix := { f.pix with field := V4L2_FIELD_NONE,
                                  num_planes := 1 } }

/-- Static function `v4l2_m2m_codec_try_coded_fmt`: unknown 4CC fails with
`-EINVAL`; otherwise the descriptor's size constraint is applied, the
field-forcing step above runs, and the format's `adjust_fmt` hook is
invoked, its failure surfaced. `none` models the unguarded
`desc->ops->adjust_fmt` dereference of a null `ops`. -/
def v4l2_m2m_codec_try_coded_fmt (ctx : v4l2_m2m_codec_ctx)
    (f : v4l2_format) : Option (Int × v4l2_format) :=
  match v4l2_m2m_codec_find_coded_fmt_desc ctx.codec f.pix.pixelformat with
  | none => some (-EINVAL, f)
  | some desc =>
    match desc.ops with
    | none => none
    | some ops =>
      match ops.adjust_fmt with
      | none => some (0, coded_fmt_force_fields
          (v4l2_m2m_codec_apply_frmsize_constraints f desc.frmsize))
      | some adj =>
        let r := adj (coded_fmt_force_fields
          (v4l2_m2m_codec_apply_frmsize_constraints f desc.frmsize))
        if r.1 != 0 then some (r.1, r.2) else some (0, r.2)

/-- Static function `v4l2_m2m_codec_try_decoded_fmt`: a null active coded
descriptor is caught defensively (`WARN_ON` then `-EINVAL`); an unknown 4CC
in the decoded table fails with `-EINVAL`; otherwise the *active coded
format's* size constraint is applied, the derived fields regenerated and
the field order forced progressive. -/
def v4l2_m2m_codec_try_decoded_fmt (ctx : v4l2_m2m_codec_ctx)
    (f : v4l2_format) : Option (Int × v4l2_format) :=
  match ctx.coded_fmt_desc with
  | none => some (-EINVAL, f)
  | some coded_desc =>
    let fourcc := f.pix.pixelformat
    if (ctx.codec.caps.decoded_fmts.find? (fun d => d.fourcc == fourcc)).isNone
    then some (-EINVAL, f)
    else
      let f := v4l2_m2m_codec_apply_frmsize_constraints f coded_desc.frmsize
      let f := v4l2_fill_pixfmt f fourcc f.pix.width f.pix.height
      let f := { f with pix := { f.pix with field := V4L2_FIELD_NONE } }
      some (0, f)

/-- Function `v4l2_m2m_codec_try_output_fmt`: the output plane carries the
coded format of a decoder and the decoded format of an encoder. -/
def v4l2_m2m_codec_try_output_fmt (ctx : v4l2_m2m_codec_ctx)
    (f : v4l2_format) : Option (Int × v4l2_format) :=
  if ctx.codec.type == .V4L2_M2M_DECODER then
    v4l2_m2m_codec_try_coded_fmt ctx f
  else
    v4l2_m2m_codec_try_decoded_fmt ctx f

/-- Function `v4l2_m2m_codec_try_capture_fmt`: dual of the output helper. -/
def v4l2_m2m_codec_try_capture_fmt (ctx : v4l2_m2m_codec_ctx)
    (f : v4l2_format) : Option (Int × v4l2_format) :=
  if ctx.codec.type == .V4L2_M2M_DECODER then
    v4l2_m2m_codec_try_decoded_fmt ctx f
  else
    v4l2_m2m_codec_try_coded_fmt ctx f

/-- Function `v4l2_m2m_codec_g_output_fmt`: a pure read of the stored format
of the output plane. -/
def v4l2_m2m_codec_g_output_fmt (ctx : v4l2_m2m_codec_ctx) : v4l2_format :=
  if ctx.codec.type == .V4L2_M2M_DECODER then ctx.coded_fmt
  else ctx.decoded_fmt

/-- Function `v4l2_m2m_codec_g_capture_fmt`: a pure read of the stored
format of the capture plane. -/
def v4l2_m2m_codec_g_capture_fmt (ctx : v4l2_m2m_codec_ctx) : v4l2_format :=
  if ctx.codec.type == .V4L2_M2M_DECODER then ctx.decoded_fmt
  else ctx.coded_fmt

/-- Collaborator accessor `v4l2_m2m_get_vq`: the queue a buffer type
selects. -/
def v4l2_m2m_get_vq (m2m : v4l2_m2m_ctx) (t : v4l2_buf_type) : vb2_queue :=
  if V4L2_TYPE_IS_OUTPUT t then m2m.out_q_ctx else m2m.cap_q_ctx

/-- Static function `v4l2_m2m_codec_s_fmt`: refuse with `-EBUSY` while the
queue the candidate's type selects has allocated buffers; run the supplied
try handler; and when the committed plane carries the coded format for this
codec type (output plane of a decoder, capture plane of an encoder), look
the committed 4CC up, store the descriptor as the active coded descriptor
and copy its `requires_requests` into the *output* queue's flag. Returns the
status, the state and the (possibly adjusted) candidate the caller goes on
to store. -/
def v4l2_m2m_codec_s_fmt (s : CodecState) (f : v4l2_format)
    (tryF : v4l2_m2m_codec_ctx → v4l2_format → Option (Int × v4l2_format)) :
    Option (Int × CodecState × v4l2_format) :=
  if (v4l2_m2m_get_vq s.m2m f.type).busy then some (-EBUSY, s, f)
  else
    match tryF s.ctx f with
    | none => none
    | some (ret, f1) =>
      if ret != 0 then some (ret, s, f1)
      else if V4L2_TYPE_IS_OUTPUT f1.type ==
              (s.ctx.codec.type == .V4L2_M2M_DECODER) then
        match v4l2_m2m_codec_find_coded_fmt_desc s.ctx.codec
                f1.pix.pixelformat with
        | none => some (-EINVAL, s, f1)
        | some desc =>
          some (0,
            { s with
              ctx := { s.ctx with coded_fmt_desc := some desc }
              m2m := { s.m2m with out_q_ctx :=
                { s.m2m.out_q_ctx with
                  requires_requests := desc.requires_requests } } },
            f1)
      else some (0, s, f1)

/-- The four colorimetry fields `v4l2_m2m_codec_s_output_fmt` propagates
from the committed format to the paired plane. -/
def propagate_colorimetry (src dst : v4l2_format) : v4l2_format :=
  { dst with pix := { dst.pix with
      colorspace := src.pix.colorspace
      xfer_func := src.pix.xfer_func
      ycbcr_enc := src.pix.ycbcr_enc
      quantization := src.pix.quantization } }

/-- Function `v4l2_m2m_codec_s_output_fmt`: run the common set-format helper
with the device's try-output handler (the framework's
`v4l2_m2m_codec_try_output_fmt`, which the device's ioctl table installs for
`vidioc_try_fmt_vid_out[_mplane]`), commit the candidate to the stored
format of the output plane (coded for a decoder, decoded for an encoder),
and propagate the colorimetry fields onto the paired capture-side stored
format — unconditionally, for both codec types. -/
def v4l2_m2m_codec_s_output_fmt (s : CodecState) (f : v4l2_format) :
    Option (Int × CodecState) :=
  match v4l2_m2m_codec_s_fmt s f v4l2_m2m_codec_try_output_fmt with
  | none => none
  | some (ret, s1, f1) =>
    if ret != 0 then some (ret, s1)
    else if s1.ctx.codec.type == .V4L2_M2M_DECODER then
      some (0, { s1 with ctx := { s1.ctx with
        coded_fmt := f1
        decoded_fmt := propagate_colorimetry f1 s1.ctx.decoded_fmt } })
    else
      some (0, { s1 with ctx := { s1.ctx with
        decoded_fmt := f1
        coded_fmt := propagate_colorimetry f1 s1.ctx.coded_fmt } })

/-- Function `v4l2_m2m_codec_s_capture_fmt`: run the common set-format
helper with the try-capture handler and commit the candidate to the stored
format of the capture plane. No colorimetry is propagated on this path. -/
def v4l2_m2m_codec_s_capture_fmt (s : CodecState) (f : v4l2_format) :
    Option (Int × CodecState) :=
  match v4l2_m2m_codec_s_fmt s f v4l2_m2m_codec_try_capture_fmt with
  | none => none
  | some (ret, s1, f1) =>
    if ret != 0 then some (ret, s1)
    else if s1.ctx.codec.type == .V4L2_M2M_DECODER then
      some (0, { s1 with ctx := { s1.ctx with decoded_fmt := f1 } })
    else
      some (0, { s1 with ctx := { s1.ctx with coded_fmt := f1 } })

/-- Function `v4l2_m2m_codec_enum_framesizes`: only index 0 is valid; an
unknown 4CC or a format without a declared constraint fails; otherwise the
declared stepwise constraint is returned. Every failure returns
`-EINVAL`. -/
def v4l2_m2m_codec_enum_framesizes (codec : v4l2_m2m_codec)
    (fsize : v4l2_frmsizeenum) : Int × v4l2_frmsizeenum :=
  if fsize.index != 0 then (-EINVAL, fsize)
  else
    match v4l2_m2m_codec_find_coded_fmt_desc codec fsize.pixel_format with
    | none => (-EINVAL, fsize)
    | some fmt =>
      match fmt.frmsize with
      | none => (-EINVAL, fsize)
      | some z =>
        (0, { fsize with type := V4L2_FRMSIZE_TYPE_STEPWISE, stepwise := z })

/-- A media request as the codec core sees it: the buffers attached to it
(by id) and, when a control-handler snapshot is bound to the request, the
ids of the controls that snapshot holds. -/
structure media_request where
  bufs : List Nat
  hdl : Option (List Nat)

/-- Collaborator `vb2_request_get_buf`: the i-th buffer attached to the
request, or null. -/
def vb2_request_get_buf (req : media_request) (i : Nat) : Option Nat :=
  req.bufs[i]?

/-- Collaborator `vb2_request_buffer_cnt`. -/
def vb2_request_buffer_cnt (req : media_request) : Nat :=
  req.bufs.length

/-- The control-presence loop of `v4l2_m2m_codec_request_validate`: walk the
active coded format's control table and fail at the first control that is
both per-request and mandatory but absent from the request's snapshot. -/
def request_ctrls_present (hdl : List Nat) :
    List v4l2_m2m_codec_ctrl_desc → Bool
  | [] => true
  | c :: rest =>
    if !(c.per_request && c.mandatory) then request_ctrls_present hdl rest
    else if hdl.contains c.cfg.id then request_ctrls_present hdl rest
    else false

/-- Function `v4l2_m2m_codec_request_validate`. `drv_priv` is the codec
context the first buffer's queue points back to (`vb2_get_drv_priv`);
`vb2_ret` the status the underlying `vb2_request_validate` collaborator
would return for this request. The checks run in the C order: no buffer →
`-ENOENT`; no context → `-EINVAL`; more than one buffer → `-EINVAL`; no
bound control snapshot → `-ENOENT`; a missing mandatory per-request control
of the active coded format → `-ENOENT`; only then the delegation. `none`
models the unguarded `ctx->coded_fmt_desc->ctrls` dereference when no coded
descriptor is resolved. -/
def v4l2_m2m_codec_request_validate (drv_priv : Option v4l2_m2m_codec_ctx)
    (req : media_request) (vb2_ret : Int) : Option Int :=
  match vb2_request_get_buf req 0 with
  | none => some (-ENOENT)
  | some _ =>
    match drv_priv with
    | none => some (-EINVAL)
    | some ctx =>
      let count := vb2_request_buffer_cnt req
      if count == 0 then some (-ENOENT)
      else if count > 1 then some (-EINVAL)
      else
        match req.hdl with
        | none => some (-ENOENT)
        | some hdl =>
          match ctx.coded_fmt_desc with
          | none => none
          | some desc =>
            match desc.ctrls with
            | none => some vb2_ret
            | some cs =>
              if request_ctrls_present hdl cs.ctrls then some vb2_ret
              else some (-ENOENT)

/-- A queued videobuf2 buffer as the cleanup path sees it: the media request
bound to it, if any. -/
structure vb2_v4l2_buffer where
  req : Option Nat
deriving DecidableEq

/-- Collaborator `v4l2_ctrl_request_complete`: mark the request's control
snapshot complete; a null request is a no-op. The model records the
completed request ids in order. -/
def v4l2_ctrl_request_complete (completed : List Nat) :
    Option Nat → List Nat
  | none => completed
  | some r => completed ++ [r]

/-- The buffer-side state `v4l2_m2m_codec_queue_cleanup` walks: the ready
list of each plane (`v4l2_m2m_src_buf_remove` / `v4l2_m2m_dst_buf_remove`
pop their heads), the control requests completed so far, and the buffers
handed back through `v4l2_m2m_buf_done` with their terminal state. -/
structure m2m_buf_state where
  src_bufs : List vb2_v4l2_buffer
  dst_bufs : List vb2_v4l2_buffer
  completed_reqs : List Nat
  done_bufs : List (vb2_v4l2_buffer × Nat)
deriving DecidableEq

/-- The drain loop of `v4l2_m2m_codec_queue_cleanup`: remove the head buffer
until the remove returns null; complete each removed buffer's control
request; mark each removed buffer done with the supplied terminal state. -/
def queue_cleanup_loop (pending : List vb2_v4l2_buffer)
    (completed : List Nat) (done : List (vb2_v4l2_buffer × Nat))
    (state : Nat) :
    List vb2_v4l2_buffer × List Nat × List (vb2_v4l2_buffer × Nat) :=
  match pending with
  | [] => (pending, completed, done)
  | vbuf :: rest =>
    queue_cleanup_loop rest (v4l2_ctrl_request_complete completed vbuf.req)
      (done ++ [(vbuf, state)]) state

/-- Function `v4l2_m2m_codec_queue_cleanup`: drain the ready list of the
plane the queue's type selects (source list for an output queue, destination
list otherwise). -/
def v4l2_m2m_codec_queue_cleanup (s : m2m_buf_state) (q_is_output : Bool)
    (state : Nat) : m2m_buf_state :=
  if q_is_output then
    let r := queue_cleanup_loop s.src_bufs s.completed_reqs s.done_bufs state
    { s with src_bufs := r.1, completed_reqs := r.2.1, done_bufs := r.2.2 }
  else
    let r := queue_cleanup_loop s.dst_bufs s.completed_reqs s.done_bufs state
    { s with dst_bufs := r.1, completed_reqs := r.2.1, done_bufs := r.2.2 }

/-- Function `v4l2_m2m_codec_start_streaming`: return 0 untouched unless
this queue carries the coded format for this codec type (output queue of a
decoder, capture queue of an encoder); then require a resolved coded
descriptor (`WARN_ON` then `-EINVAL`), invoke the format's `start` callback
when it exists and surface its status. `none` models the unguarded
`desc->ops->start` dereference of a null `ops`. The `count` argument is
unused, as in C. -/
def v4l2_m2m_codec_start_streaming (ctx : v4l2_m2m_codec_ctx)
    (qtype : v4l2_buf_type) (count : Nat) : Option Int :=
  let _ := count
  if ((ctx.codec.type == .V4L2_M2M_DECODER) != V4L2_TYPE_IS_OUTPUT qtype)
  then some 0
  else
    match ctx.coded_fmt_desc with
    | none => some (-EINVAL)
    | some desc =>
      match desc.ops with
      | none => none
      | some ops =>
        match ops.start with
        | none => some 0
        | some ret => if ret != 0 then some ret else some 0

/-- The validation performed by `v4l2_m2m_codec_init` before it binds the
device: reject a missing ops table or `queue_init` callback, an empty
coded- or decoded-format table, and any coded-format entry whose `ops`
pointer is null. (The null checks on the `codec`, `caps` and `m2m_dev`
out-parameters themselves concern pointer wiring outside this model.)
Nothing else about the capability descriptor is inspected — in particular
no coded-format entry's `ctrls` pointer. -/
def v4l2_m2m_codec_init (caps : v4l2_m2m_codec_caps) (have_ops : Bool)
    (have_queue_init : Bool) : Int :=
  if !have_ops || caps.coded_fmts.length == 0 ||
     caps.decoded_fmts.length == 0 || !have_queue_init then -EINVAL
  else if caps.coded_fmts.any (fun d => d.ops.isNone) then -EINVAL
  else 0

/-- The control-registry sizing loop of `v4l2_m2m_codec_init_ctrls`:
`nctrls += fmts[i].ctrls->num_ctrls` reads through every coded format's
`ctrls` pointer with no null check. `none` models the dereference of a null
`ctrls`; `some n` the total the handler is initialised with. -/
def v4l2_m2m_codec_init_ctrls_nctrls (caps : v4l2_m2m_codec_caps) :
    Option Nat :=
  caps.coded_fmts.foldl
    (fun acc d =>
      match acc, d.ctrls with
      | some n, some cs => some (n + cs.ctrls.length)
      | _, _ => none)
    (some 0)

/-- The four colorimetry fields of a stored format, as one tuple. -/
def colorimetry (f : v4l2_format) : Nat × Nat × Nat × Nat :=
  (f.pix.colorspace, f.pix.xfer_func, f.pix.ycbcr_enc, f.pix.quantization)

/-- The V4L2 ioctl layer routes a try-format call by the candidate's buffer
type: output types reach the output helper, capture types the capture
helper. -/
def try_fmt_ioctl (ctx : v4l2_m2m_codec_ctx) (f : v4l2_format) :
    Option (Int × v4l2_format) :=
  if V4L2_TYPE_IS_OUTPUT f.type then v4l2_m2m_codec_try_output_fmt ctx f
  else v4l2_m2m_codec_try_capture_fmt ctx f

/-- The V4L2 ioctl layer routes a set-format call by the candidate's buffer
type. -/
def s_fmt_ioctl (s : CodecState) (f : v4l2_format) :
    Option (Int × CodecState) :=
  if V4L2_TYPE_IS_OUTPUT f.type then v4l2_m2m_codec_s_output_fmt s f
  else v4l2_m2m_codec_s_capture_fmt s f

/-- The V4L2 ioctl layer routes a get-format call by the requested buffer
type. -/
def g_fmt_ioctl (ctx : v4l2_m2m_codec_ctx) (t : v4l2_buf_type) :
    v4l2_format :=
  if V4L2_TYPE_IS_OUTPUT t then v4l2_m2m_codec_g_output_fmt ctx
  else v4l2_m2m_codec_g_capture_fmt ctx

/-- An `adjust_fmt` hook (possibly absent) that succeeds and leaves the
candidate's pixel format and buffer type alone — the design contract of the
hook, which exists to tweak sizes, not to change the negotiated 4CC. -/
def adjust_fmt_preserving :
    Option (v4l2_format → Int × v4l2_format) → Prop
  | none => True
  | some adj => ∀ g, (adj g).1 = 0 ∧
      ((adj g).2).pix.pixelformat = g.pix.pixelformat ∧
      ((adj g).2).type = g.type

/-- Fixture: an ops table with no optional hooks. -/
def exOpsPlain : v4l2_m2m_codec_coded_fmt_ops :=
  { adjust_fmt := none, start := none, stop := none, run := none }

/-- Fixture: an ops table whose `start` callback fails with -5. -/
def exOpsStartErr : v4l2_m2m_codec_coded_fmt_ops :=
  { adjust_fmt := none, start := some (-5), stop := none, run := none }

/-- Fixture: an ops table whose `adjust_fmt` hook succeeds but rewrites the
candidate's pixel format to 2. -/
def exOpsRewriteTo2 : v4l2_m2m_codec_coded_fmt_ops :=
  { adjust_fmt := some (fun g =>
      (0, { g with pix := { g.pix with pixelformat := 2 } }))
    start := none, stop := none, run := none }

/-- Fixture: an empty control table. -/
def exCtrlsEmpty : v4l2_m2m_codec_ctrls := { ctrls := [] }

/-- Fixture: one mandatory per-request control with id 100. -/
def exCtrlsDecode : v4l2_m2m_codec_ctrls :=
  { ctrls := [{ per_request := true, mandatory := true, cfg := { id := 100 } }] }

/-- Fixture: a stepwise frame-size constraint. -/
def exFrm : v4l2_frmsize_stepwise :=
  { min_width := 64, max_width := 1920, step_width := 16
    min_height := 64, max_height := 1088, step_height := 16 }

/-- Fixture: the all-zero stepwise constraint (a scratch value). -/
def exZeroFrm : v4l2_frmsize_stepwise :=
  { min_width := 0, max_width := 0, step_width := 0
    min_height := 0, max_height := 0, step_height := 0 }

/-- Fixture: an idle queue with no allocated buffers. -/
def exIdleQ : vb2_queue := { busy := false, requires_requests := false }

/-- Fixture: a coded format (4CC 1) with no constraint and no hooks. -/
def exDescC1 : v4l2_m2m_codec_coded_fmt_desc :=
  { fourcc := 1, requires_requests := false, frmsize := none
    ctrls := some exCtrlsEmpty, ops := some exOpsPlain }

/-- Fixture: capabilities with coded 4CC 1 and decoded 4CC 2. -/
def exCapsC1 : v4l2_m2m_codec_caps :=
  { coded_fmts := [exDescC1], decoded_fmts := [{ fourcc := 2 }] }

/-- Fixture: an encoder's stored coded format (capture plane), colorspace
7. -/
def exFmtCap1cs7 : v4l2_format :=
  { type := .videoCapture
    pix := { v4l2_pix_format.zero with pixelformat := 1, colorspace := 7 } }

/-- Fixture: an encoder's stored decoded format (output plane), colorspace
7. -/
def exFmtOut2cs7 : v4l2_format :=
  { type := .videoOutput
    pix := { v4l2_pix_format.zero with pixelformat := 2, colorspace := 7 } }

/-- Fixture: an encoder context over `exCapsC1` with both formats stored at
colorspace 7. -/
def exC1ctx : v4l2_m2m_codec_ctx :=
  { codec := { type := .V4L2_M2M_ENCODER, caps := exCapsC1, mplane := false }
    coded_fmt := exFmtCap1cs7, decoded_fmt := exFmtOut2cs7
    coded_fmt_desc := some exDescC1, decoded_fmt_desc := some { fourcc := 2 } }

/-- Fixture: the encoder context with idle queues. -/
def exC1state : CodecState :=
  { ctx := exC1ctx, m2m := { out_q_ctx := exIdleQ, cap_q_ctx := exIdleQ } }

/-- Fixture: a coded-plane candidate for the encoder (capture type, 4CC 1)
carrying colorspace 5. -/
def exC1cand : v4l2_format :=
  { type := .videoCapture
    pix := { v4l2_pix_format.zero with pixelformat := 1, colorspace := 5 } }

/-- Fixture: the C9 coded format — like `exDescC1` but requiring request
objects. -/
def exDescC9 : v4l2_m2m_codec_coded_fmt_desc :=
  { fourcc := 1, requires_requests := true, frmsize := none
    ctrls := some exCtrlsEmpty, ops := some exOpsPlain }

/-- Fixture: capabilities whose only coded format requires requests. -/
def exCapsC9 : v4l2_m2m_codec_caps :=
  { coded_fmts := [exDescC9], decoded_fmts := [{ fourcc := 2 }] }

/-- Fixture: an encoder context over `exCapsC9`. -/
def exC9ctx : v4l2_m2m_codec_ctx :=
  { codec := { type := .V4L2_M2M_ENCODER, caps := exCapsC9, mplane := false }
    coded_fmt := exFmtCap1cs7, decoded_fmt := exFmtOut2cs7
    coded_fmt_desc := some exDescC9, decoded_fmt_desc := some { fourcc := 2 } }

/-- Fixture: the `exC9ctx` context with idle queues whose requires-requests
flags both start false. -/
def exC9state : CodecState :=
  { ctx := exC9ctx, m2m := { out_q_ctx := exIdleQ, cap_q_ctx := exIdleQ } }

/-- Fixture: coded format A (4CC 1) whose adjust hook rewrites the 4CC to
2. -/
def exDescC4A : v4l2_m2m_codec_coded_fmt_desc :=
  { fourcc := 1, requires_requests := false, frmsize := none
    ctrls := some exCtrlsEmpty, ops := some exOpsRewriteTo2 }

/-- Fixture: coded format B (4CC 2), no hooks. -/
def exDescC4B : v4l2_m2m_codec_coded_fmt_desc :=
  { fourcc := 2, requires_requests := false, frmsize := none
    ctrls := some exCtrlsEmpty, ops := some exOpsPlain }

/-- Fixture: capabilities registering both coded formats A and B. -/
def exCapsC4 : v4l2_m2m_codec_caps :=
  { coded_fmts := [exDescC4A, exDescC4B], decoded_fmts := [{ fourcc := 3 }] }

/-- Fixture: a decoder context over `exCapsC4`. -/
def exC4ctx : v4l2_m2m_codec_ctx :=
  { codec := { type := .V4L2_M2M_DECODER, caps := exCapsC4, mplane := false }
    coded_fmt := { type := .videoOutput
                   pix := { v4l2_pix_format.zero with pixelformat := 1 } }
    decoded_fmt := { type := .videoCapture
                     pix := { v4l2_pix_format.zero with pixelformat := 3 } }
    coded_fmt_desc := some exDescC4A, decoded_fmt_desc := some { fourcc := 3 } }

/-- Fixture: the decoder context over `exCapsC4` with idle queues. -/
def exC4state : CodecState :=
  { ctx := exC4ctx, m2m := { out_q_ctx := exIdleQ, cap_q_ctx := exIdleQ } }

/-- Fixture: a coded-plane candidate (output type on this decoder) carrying
format A's 4CC 1. -/
def exC4cand : v4l2_format :=
  { type := .videoOutput
    pix := { v4l2_pix_format.zero with pixelformat := 1 } }

/-- Fixture: a well-behaved coded format (4CC 1, constraint `exFrm`, no
hooks). -/
def exDescW : v4l2_m2m_codec_coded_fmt_desc :=
  { fourcc := 1, requires_requests := false, frmsize := some exFrm
    ctrls := some exCtrlsEmpty, ops := some exOpsPlain }

/-- Fixture: capabilities with the single well-behaved coded format. -/
def exCapsW : v4l2_m2m_codec_caps :=
  { coded_fmts := [exDescW], decoded_fmts := [{ fourcc := 3 }] }

/-- Fixture: a decoder context over `exCapsW`. -/
def exWctx : v4l2_m2m_codec_ctx :=
  { codec := { type := .V4L2_M2M_DECODER, caps := exCapsW, mplane := false }
    coded_fmt := { type := .videoOutput
                   pix := { v4l2_pix_format.zero with pixelformat := 1 } }
    decoded_fmt := { type := .videoCapture
                     pix := { v4l2_pix_format.zero with pixelformat := 3 } }
    coded_fmt_desc := some exDescW, decoded_fmt_desc := some { fourcc := 3 } }

/-- Fixture: the well-behaved decoder context with idle queues. -/
def exWstate : CodecState :=
  { ctx := exWctx, m2m := { out_q_ctx := exIdleQ, cap_q_ctx := exIdleQ } }

/-- Fixture: a coded-plane candidate for the well-behaved decoder, 128x128,
colorspace 5. -/
def exWcand : v4l2_format :=
  { type := .videoOutput
    pix := { v4l2_pix_format.zero with
      pixelformat := 1, width := 128, height := 128, colorspace := 5 } }

/-- Fixture: the state `v4l2_m2m_codec_s_output_fmt` reaches from
`exWstate` on `exWcand` (the getD default is never used: the call
succeeds). -/
def exWres : Int × CodecState :=
  (v4l2_m2m_codec_s_output_fmt exWstate exWcand).getD (0, exWstate)

/-- Fixture: the state `v4l2_m2m_codec_s_fmt` reaches from `exWstate` on
`exWcand` through the output try handler. -/
def exWsfmtRes : Int × CodecState × v4l2_format :=
  (v4l2_m2m_codec_s_fmt exWstate exWcand
    v4l2_m2m_codec_try_output_fmt).getD (0, exWstate, exWcand)

/-- Fixture: an encoder context whose only coded format has a failing
`start` callback. -/
def exC5ctx : v4l2_m2m_codec_ctx :=
  { codec := { type := .V4L2_M2M_ENCODER
               caps := { coded_fmts := [{ fourcc := 1
                                          requires_requests := false
                                          frmsize := none
                                          ctrls := some exCtrlsEmpty
                                          ops := some exOpsStartErr }]
                         decoded_fmts := [{ fourcc := 2 }] }
               mplane := false }
    coded_fmt := exFmtCap1cs7, decoded_fmt := exFmtOut2cs7
    coded_fmt_desc := some { fourcc := 1, requires_requests := false
                             frmsize := none, ctrls := some exCtrlsEmpty
                             ops := some exOpsStartErr }
    decoded_fmt_desc := some { fourcc := 2 } }

/-- Fixture: a coded format (4CC 1) that declares no frame-size
constraint, for the frame-size enumeration. -/
def exDescC6 : v4l2_m2m_codec_coded_fmt_desc :=
  { fourcc := 1, requires_requests := false, frmsize := none
    ctrls := some exCtrlsEmpty, ops := some exOpsPlain }

/-- Fixture: a codec whose only coded format declares no constraint. -/
def exC6codec : v4l2_m2m_codec :=
  { type := .V4L2_M2M_DECODER
    caps := { coded_fmts := [exDescC6], decoded_fmts := [{ fourcc := 2 }] }
    mplane := false }

/-- Fixture: a codec whose only coded format declares the `exFrm`
constraint. -/
def exC6codecW : v4l2_m2m_codec :=
  { type := .V4L2_M2M_DECODER
    caps := { coded_fmts := [exDescW], decoded_fmts := [{ fourcc := 2 }] }
    mplane := false }

/-- Fixture: a frame-size query for 4CC 1 at index 0. -/
def exC6fs : v4l2_frmsizeenum :=
  { index := 0, pixel_format := 1, type := 0, stepwise := exZeroFrm }

/-- Fixture: a coded format declaring the mandatory per-request control
table `exCtrlsDecode`. -/
def exDescC3 : v4l2_m2m_codec_coded_fmt_desc :=
  { fourcc := 1, requires_requests := true, frmsize := none
    ctrls := some exCtrlsDecode, ops := some exOpsPlain }

/-- Fixture: a decoder context whose active coded format is `exDescC3`. -/
def exC3ctx : v4l2_m2m_codec_ctx :=
  { codec := { type := .V4L2_M2M_DECODER
               caps := { coded_fmts := [exDescC3]
                         decoded_fmts := [{ fourcc := 2 }] }
               mplane := false }
    coded_fmt := { type := .videoOutput
                   pix := { v4l2_pix_format.zero with pixelformat := 1 } }
    decoded_fmt := { type := .videoCapture
                     pix := { v4l2_pix_format.zero with pixelformat := 2 } }
    coded_fmt_desc := some exDescC3, decoded_fmt_desc := some { fourcc := 2 } }

/-- Fixture: a request with one buffer whose snapshot holds control 100. -/
def exReqOk : media_request := { bufs := [10], hdl := some [100] }

/-- Fixture: a buffer state with two source buffers, one request-bound. -/
def exBufState : m2m_buf_state :=
  { src_bufs := [{ req := some 7 }, { req := none }]
    dst_bufs := [{ req := some 9 }]
    completed_reqs := [], done_bufs := [] }

/-- Fixture: the encoder state of `exC1ctx` with both queues busy. -/
def exBusyState : CodecState :=
  { ctx := exC1ctx
    m2m := { out_q_ctx := { busy := true, requires_requests := false }
             cap_q_ctx := { busy := true, requires_requests := false } } }

/-- Fixture: a context for the reset pair: decoder over `exCapsW`, nothing
resolved yet. -/
def exC8ctx : v4l2_m2m_codec_ctx :=
  { codec := { type := .V4L2_M2M_DECODER, caps := exCapsW, mplane := false }
    coded_fmt := { type := .invalid, pix := v4l2_pix_format.zero }
    decoded_fmt := { type := .invalid, pix := v4l2_pix_format.zero }
    coded_fmt_desc := none, decoded_fmt_desc := none }

/-- Fixture: the context `v4l2_m2m_codec_reset_coded_fmt` reaches from
`exC8ctx` (the getD default is never used: the reset succeeds). -/
def exC8ctx1 : v4l2_m2m_codec_ctx :=
  (v4l2_m2m_codec_reset_coded_fmt exC8ctx).getD exC8ctx

/-- Fixture: the context `v4l2_m2m_codec_reset_decoded_fmt` reaches from
`exC8ctx1`. -/
def exC8ctx2 : v4l2_m2m_codec_ctx :=
  (v4l2_m2m_codec_reset_decoded_fmt exC8ctx1).getD exC8ctx1

/-- Fixture: a capability table whose only coded format carries a null
`ctrls` pointer but a valid ops table. -/
def exCapsC10 : v4l2_m2m_codec_caps :=
  { coded_fmts := [{ fourcc := 1, requires_requests := false, frmsize := none
                     ctrls := none, ops := some exOpsPlain }]
    decoded_fmts := [{ fourcc := 2 }] }

/-- A set-format call never touches the stored formats, the codec binding or
the capture queue inside the common helper: only `coded_fmt_desc` and the
output queue's requires-requests flag can change there. -/
theorem s_fmt_preserves (s : CodecState) (f : v4l2_format)
    (tryF : v4l2_m2m_codec_ctx → v4l2_format → Option (Int × v4l2_format))
    (r : Int) (s1 : CodecState) (f1 : v4l2_format)
    (h : v4l2_m2m_codec_s_fmt s f tryF = some (r, s1, f1)) :
    s1.ctx.coded_fmt = s.ctx.coded_fmt ∧
    s1.ctx.decoded_fmt = s.ctx.decoded_fmt ∧
    s1.ctx.codec = s.ctx.codec ∧
    s1.m2m.cap_q_ctx = s.m2m.cap_q_ctx := by
  unfold v4l2_m2m_codec_s_fmt at h
  split at h
  · simp only [Option.some.injEq, Prod.mk.injEq] at h
    obtain ⟨-, h2, -⟩ := h
    subst h2
    exact ⟨rfl, rfl, rfl, rfl⟩
  · split at h
    · exact absurd h (by simp)
    · split at h
      · simp only [Option.some.injEq, Prod.mk.injEq] at h
        obtain ⟨-, h2, -⟩ := h
        subst h2
        exact ⟨rfl, rfl, rfl, rfl⟩
      · split at h
        · split at h
          · simp only [Option.some.injEq, Prod.mk.injEq] at h
            obtain ⟨-, h2, -⟩ := h
            subst h2
            exact ⟨rfl, rfl, rfl, rfl⟩
          · simp only [Option.some.injEq, Prod.mk.injEq] at h
            obtain ⟨-, h2, -⟩ := h
            subst h2
            exact ⟨rfl, rfl, rfl, rfl⟩
        · simp only [Option.some.injEq, Prod.mk.injEq] at h
          obtain ⟨-, h2, -⟩ := h
          subst h2
          exact ⟨rfl, rfl, rfl, rfl⟩

/-- C2: on every plane, a set-format call against a queue that reports
allocated buffers fails with `-EBUSY` and returns the state unchanged — the
stored formats, the active coded descriptor and the requires-requests flags
are exactly those of the input state. -/
theorem C2_set_fmt_busy :
    ∀ (s : CodecState) (f : v4l2_format),
      (v4l2_m2m_get_vq s.m2m f.type).busy = true →
      v4l2_m2m_codec_s_output_fmt s f = some (-EBUSY, s) ∧
      v4l2_m2m_codec_s_capture_fmt s f = some (-EBUSY, s) := by
  intro s f h
  have hs : ∀ tryF, v4l2_m2m_codec_s_fmt s f tryF = some (-EBUSY, s, f) := by
    intro tryF
    unfold v4l2_m2m_codec_s_fmt
    rw [h]
    simp
  constructor
  · unfold v4l2_m2m_codec_s_output_fmt
    rw [hs]
    norm_num [EBUSY]
  · unfold v4l2_m2m_codec_s_capture_fmt
    rw [hs]
    norm_num [EBUSY]

/-- C2 witness: with both queues of the encoder fixture busy, either
set-format call fails with `-EBUSY` and the state is returned untouched. -/
theorem C2_set_fmt_busy_witness :
    v4l2_m2m_codec_s_output_fmt exBusyState exC1cand =
      some (-EBUSY, exBusyState) ∧
    v4l2_m2m_codec_s_capture_fmt exBusyState exC1cand =
      some (-EBUSY, exBusyState) :=
  C2_set_fmt_busy exBusyState exC1cand rfl

/-- C1 (amended): a successful set-format on the *output* plane leaves the
coded and decoded stored formats agreeing on all four colorimetry fields,
for both codec types — the code propagates from the output plane to the
capture plane unconditionally; and a successful set-format on the capture
plane never propagates: the output plane's stored format is unchanged. For
a decoder, whose coded format rides the output plane, the original claim
holds; for an encoder it does not. -/
theorem C1_colorimetry_propagation :
    (∀ (s : CodecState) (f : v4l2_format) (s' : CodecState),
        v4l2_m2m_codec_s_output_fmt s f = some (0, s') →
        colorimetry s'.ctx.coded_fmt = colorimetry s'.ctx.decoded_fmt) ∧
    (∀ (s : CodecState) (f : v4l2_format) (s' : CodecState),
        v4l2_m2m_codec_s_capture_fmt s f = some (0, s') →
        v4l2_m2m_codec_g_output_fmt s'.ctx =
          v4l2_m2m_codec_g_output_fmt s.ctx) := by
  constructor
  · intro s f s' h
    unfold v4l2_m2m_codec_s_output_fmt at h
    split at h
    · exact absurd h (by simp)
    · rename_i res ret s1 f1 heq
      split at h
      · rename_i hret
        simp only [Option.some.injEq, Prod.mk.injEq] at h
        obtain ⟨h1, -⟩ := h
        subst h1
        simp at hret
      · split at h
        · simp only [Option.some.injEq, Prod.mk.injEq] at h
          obtain ⟨-, h2⟩ := h
          subst h2
          simp [colorimetry, propagate_colorimetry]
        · simp only [Option.some.injEq, Prod.mk.injEq] at h
          obtain ⟨-, h2⟩ := h
          subst h2
          simp [colorimetry, propagate_colorimetry]
  · intro s f s' h
    unfold v4l2_m2m_codec_s_capture_fmt at h
    split at h
    · exact absurd h (by simp)
    · rename_i res ret s1 f1 heq
      have hpres := s_fmt_preserves s f _ ret s1 f1 heq
      obtain ⟨hco, hde, hcodec, -⟩ := hpres
      split at h
      · rename_i hret
        simp only [Option.some.injEq, Prod.mk.injEq] at h
        obtain ⟨h1, -⟩ := h
        subst h1
        simp at hret
      · split at h
        · rename_i hdec
          have hdec2 : (s.ctx.codec.type ==
              v4l2_m2m_codec_type.V4L2_M2M_DECODER) = true := by
            rw [← hcodec]; exact hdec
          simp only [Option.some.injEq, Prod.mk.injEq] at h
          obtain ⟨-, h2⟩ := h
          subst h2
          simp [v4l2_m2m_codec_g_output_fmt, hcodec, hco, hde, hdec2]
        · rename_i hdec
          have hdec2 := hdec
          rw [hcodec] at hdec2
          simp only [Option.some.injEq, Prod.mk.injEq] at h
          obtain ⟨-, h2⟩ := h
          subst h2
          simp [v4l2_m2m_codec_g_output_fmt, hcodec, hco, hde, hdec2]

/-- C1 counterexample: on an encoder, the coded format rides the *capture*
plane; committing it there with colorspace 5 succeeds, yet the paired
decoded format still reports colorspace 7 — no propagation happened even
though the committed plane is the one carrying the coded format. -/
theorem C1_colorimetry_propagation_cex :
    exC1state.ctx.codec.type = .V4L2_M2M_ENCODER ∧
    (V4L2_TYPE_IS_OUTPUT exC1cand.type ==
      (exC1state.ctx.codec.type == .V4L2_M2M_DECODER)) = true ∧
    exC1cand.pix.colorspace = 5 ∧
    (v4l2_m2m_codec_s_capture_fmt exC1state exC1cand).map
      (fun r => (r.1, r.2.ctx.coded_fmt.pix.colorspace,
                 r.2.ctx.decoded_fmt.pix.colorspace)) = some (0, 5, 7) ∧
    (7 : Nat) ≠ 5 :=
  ⟨rfl, rfl, rfl, rfl, by decide⟩

/-- C1 witness: a successful output-plane set on the decoder fixture leaves
both stored formats with equal colorimetry. -/
theorem C1_colorimetry_propagation_witness :
    colorimetry exWres.2.ctx.coded_fmt =
      colorimetry exWres.2.ctx.decoded_fmt :=
  C1_colorimetry_propagation.1 exWstate exWcand exWres.2 rfl

/-- C9 (amended): when the common set-format helper succeeds on the plane
carrying the coded format, the active coded descriptor becomes the table
entry matching the committed 4CC and that descriptor's requires-requests
bit lands in the *output* queue's flag — regardless of codec type — while
the capture queue is left untouched, even when the capture queue is the one
carrying the coded plane (encoder). -/
theorem C9_s_fmt_desc_update :
    ∀ (s : CodecState) (f : v4l2_format)
      (tryF : v4l2_m2m_codec_ctx → v4l2_format → Option (Int × v4l2_format))
      (s' : CodecState) (f1 : v4l2_format),
      v4l2_m2m_codec_s_fmt s f tryF = some (0, s', f1) →
      (V4L2_TYPE_IS_OUTPUT f1.type ==
        (s.ctx.codec.type == .V4L2_M2M_DECODER)) = true →
      ∃ desc,
        v4l2_m2m_codec_find_coded_fmt_desc s.ctx.codec f1.pix.pixelformat =
          some desc ∧
        s'.ctx.coded_fmt_desc = some desc ∧
        s'.m2m.out_q_ctx.requires_requests = desc.requires_requests ∧
        s'.m2m.cap_q_ctx = s.m2m.cap_q_ctx := by
  intro s f tryF s' f1 h hplane
  unfold v4l2_m2m_codec_s_fmt at h
  split at h
  · simp only [Option.some.injEq, Prod.mk.injEq] at h
    obtain ⟨h1, -⟩ := h
    exact absurd h1.symm (by norm_num [EBUSY])
  · split at h
    · exact absurd h (by simp)
    · rename_i ret f1' heq
      split at h
      · rename_i hret
        simp only [Option.some.injEq, Prod.mk.injEq] at h
        obtain ⟨h1, -⟩ := h
        subst h1
        simp at hret
      · split at h
        · split at h
          · simp only [Option.some.injEq, Prod.mk.injEq] at h
            obtain ⟨h1, -⟩ := h
            exact absurd h1.symm (by norm_num [EINVAL])
          · rename_i desc hfind
            simp only [Option.some.injEq, Prod.mk.injEq] at h
            obtain ⟨-, h2, h3⟩ := h
            subst h2
            subst h3
            exact ⟨desc, hfind, rfl, rfl, rfl⟩
        · rename_i hcond
          simp only [Option.some.injEq, Prod.mk.injEq] at h
          obtain ⟨-, h2, h3⟩ := h
          subst h2
          subst h3
          exact absurd hplane hcond

/-- C9 counterexample: on the encoder fixture the coded format rides the
capture plane and its descriptor demands request objects, yet a successful
coded-plane commit raises the *output* queue's requires-requests flag and
leaves the capture queue's flag false — the claim's "queue carrying that
coded plane" is not the queue the code updates. -/
theorem C9_s_fmt_desc_update_cex :
    exC9state.ctx.codec.type = .V4L2_M2M_ENCODER ∧
    (V4L2_TYPE_IS_OUTPUT exC1cand.type ==
      (exC9state.ctx.codec.type == .V4L2_M2M_DECODER)) = true ∧
    exDescC9.requires_requests = true ∧
    exC9state.m2m.cap_q_ctx.requires_requests = false ∧
    (v4l2_m2m_codec_s_capture_fmt exC9state exC1cand).map
      (fun r => (r.1, r.2.m2m.cap_q_ctx.requires_requests,
                 r.2.m2m.out_q_ctx.requires_requests)) =
      some (0, false, true) :=
  ⟨rfl, rfl, rfl, rfl, rfl⟩

/-- C9 witness: committing the coded plane of the decoder fixture resolves
descriptor `exDescW` and copies its requires-requests bit into the output
queue. -/
theorem C9_s_fmt_desc_update_witness :
    ∃ desc,
      v4l2_m2m_codec_find_coded_fmt_desc exWstate.ctx.codec
        exWsfmtRes.2.2.pix.pixelformat = some desc ∧
      exWsfmtRes.2.1.ctx.coded_fmt_desc = some desc ∧
      exWsfmtRes.2.1.m2m.out_q_ctx.requires_requests =
        desc.requires_requests ∧
      exWsfmtRes.2.1.m2m.cap_q_ctx = exWstate.m2m.cap_q_ctx :=
  C9_s_fmt_desc_update exWstate exWcand v4l2_m2m_codec_try_output_fmt
    exWsfmtRes.2.1 exWsfmtRes.2.2 rfl rfl

/-- The collaborator clamp never touches the pixel format. -/
theorem apply_frmsize_pixelformat (f : v4l2_format)
    (o : Option v4l2_frmsize_stepwise) :
    (v4l2_m2m_codec_apply_frmsize_constraints f o).pix.pixelformat =
      f.pix.pixelformat := by
  cases o <;> rfl

/-- The collaborator clamp never touches the buffer type. -/
theorem apply_frmsize_type (f : v4l2_format)
    (o : Option v4l2_frmsize_stepwise) :
    (v4l2_m2m_codec_apply_frmsize_constraints f o).type = f.type := by
  cases o <;> rfl

/-- The field-forcing step never touches the pixel format. -/
theorem force_fields_pixelformat (f : v4l2_format) :
    (coded_fmt_force_fields f).pix.pixelformat = f.pix.pixelformat := by
  unfold coded_fmt_force_fields
  split <;> rfl

/-- The field-forcing step never touches the buffer type. -/
theorem force_fields_type (f : v4l2_format) :
    (coded_fmt_force_fields f).type = f.type := by
  unfold coded_fmt_force_fields
  split <;> rfl

/-- A coded-plane try on a registered 4CC whose adjust hook (if any)
succeeds and preserves the pixel format returns status 0 and a candidate
with the 4CC and buffer type intact. -/
theorem try_coded_fmt_preserving (ctx : v4l2_m2m_codec_ctx)
    (f : v4l2_format) (desc : v4l2_m2m_codec_coded_fmt_desc)
    (ops : v4l2_m2m_codec_coded_fmt_ops)
    (hfind : v4l2_m2m_codec_find_coded_fmt_desc ctx.codec f.pix.pixelformat =
      some desc)
    (hops : desc.ops = some ops)
    (hadj : adjust_fmt_preserving ops.adjust_fmt) :
    ∃ f1, v4l2_m2m_codec_try_coded_fmt ctx f = some (0, f1) ∧
      f1.pix.pixelformat = f.pix.pixelformat ∧ f1.type = f.type := by
  have hpf : (coded_fmt_force_fields
      (v4l2_m2m_codec_apply_frmsize_constraints f desc.frmsize)).pix.pixelformat =
      f.pix.pixelformat := by
    rw [force_fields_pixelformat, apply_frmsize_pixelformat]
  have hty : (coded_fmt_force_fields
      (v4l2_m2m_codec_apply_frmsize_constraints f desc.frmsize)).type =
      f.type := by
    rw [force_fields_type, apply_frmsize_type]
  unfold v4l2_m2m_codec_try_coded_fmt
  rw [hfind]
  simp only [hops]
  cases hadj2 : ops.adjust_fmt with
  | none => exact ⟨_, rfl, hpf, hty⟩
  | some adj =>
    rw [hadj2] at hadj
    obtain ⟨h1, h2, h3⟩ := hadj (coded_fmt_force_fields
      (v4l2_m2m_codec_apply_frmsize_constraints f desc.frmsize))
    refine ⟨_, ?_, h2.trans hpf, h3.trans hty⟩
    simp [h1]

/-- Evaluation of the common set-format helper on the success path through
the coded-plane branch: the returned state is the input state with the
active coded descriptor replaced and the output queue's requires-requests
flag copied from it. -/
theorem s_fmt_success_eval (s : CodecState) (f : v4l2_format)
    (tryF : v4l2_m2m_codec_ctx → v4l2_format → Option (Int × v4l2_format))
    (f1 : v4l2_format) (desc : v4l2_m2m_codec_coded_fmt_desc)
    (hbusy : (v4l2_m2m_get_vq s.m2m f.type).busy = false)
    (htry : tryF s.ctx f = some (0, f1))
    (hplane : (V4L2_TYPE_IS_OUTPUT f1.type ==
      (s.ctx.codec.type == .V4L2_M2M_DECODER)) = true)
    (hfind : v4l2_m2m_codec_find_coded_fmt_desc s.ctx.codec
      f1.pix.pixelformat = some desc) :
    v4l2_m2m_codec_s_fmt s f tryF = some (0,
      { s with
        ctx := { s.ctx with coded_fmt_desc := some desc }
        m2m := { s.m2m with out_q_ctx :=
          { s.m2m.out_q_ctx with
            requires_requests := desc.requires_requests } } }, f1) := by
  unfold v4l2_m2m_codec_s_fmt
  rw [hbusy, htry]
  simp [hplane, hfind]

/-- C4 (amended): for a candidate on the plane carrying the coded format
whose 4CC is registered, provided the plane's queue has no allocated
buffers and the format's adjust hook (when present) succeeds and preserves
the candidate's 4CC and buffer type, the try / set / get chain succeeds and
get reports the registered 4CC. The hook precondition is necessary: the
counterexample below shows a registered format whose hook rewrites the 4CC
while every call still succeeds. -/
theorem C4_fourcc_roundtrip :
    ∀ (s : CodecState) (f : v4l2_format)
      (desc : v4l2_m2m_codec_coded_fmt_desc)
      (ops : v4l2_m2m_codec_coded_fmt_ops),
      (V4L2_TYPE_IS_OUTPUT f.type ==
        (s.ctx.codec.type == .V4L2_M2M_DECODER)) = true →
      (v4l2_m2m_get_vq s.m2m f.type).busy = false →
      v4l2_m2m_codec_find_coded_fmt_desc s.ctx.codec f.pix.pixelformat =
        some desc →
      desc.ops = some ops →
      adjust_fmt_preserving ops.adjust_fmt →
      ∃ f1 s', try_fmt_ioctl s.ctx f = some (0, f1) ∧
        f1.pix.pixelformat = f.pix.pixelformat ∧ f1.type = f.type ∧
        s_fmt_ioctl s f = some (0, s') ∧
        (g_fmt_ioctl s'.ctx f.type).pix.pixelformat = f.pix.pixelformat := by
  intro s f desc ops hplane hbusy hfind hadjops hadj
  obtain ⟨f1, htry, hpf, hty⟩ :=
    try_coded_fmt_preserving s.ctx f desc ops hfind hadjops hadj
  have hfind1 : v4l2_m2m_codec_find_coded_fmt_desc s.ctx.codec
      f1.pix.pixelformat = some desc := by rw [hpf]; exact hfind
  cases hdec : s.ctx.codec.type with
  | V4L2_M2M_DECODER =>
    have hout : V4L2_TYPE_IS_OUTPUT f.type = true := by
      rw [hdec] at hplane; simpa using hplane
    have htry2 : v4l2_m2m_codec_try_output_fmt s.ctx f = some (0, f1) := by
      unfold v4l2_m2m_codec_try_output_fmt
      rw [hdec]
      simpa using htry
    have hplane1 : (V4L2_TYPE_IS_OUTPUT f1.type ==
        (s.ctx.codec.type == v4l2_m2m_codec_type.V4L2_M2M_DECODER)) = true := by
      rw [hty, hdec]
      simpa using hout
    have hsfmt := s_fmt_success_eval s f v4l2_m2m_codec_try_output_fmt f1 desc
      hbusy htry2 hplane1 hfind1
    refine ⟨f1,
      { s with
        ctx := { s.ctx with
                 coded_fmt_desc := some desc
                 coded_fmt := f1
                 decoded_fmt := propagate_colorimetry f1 s.ctx.decoded_fmt }
        m2m := { s.m2m with out_q_ctx :=
          { s.m2m.out_q_ctx with
            requires_requests := desc.requires_requests } } },
      ?_, hpf, hty, ?_, ?_⟩
    · unfold try_fmt_ioctl
      rw [hout]
      simpa using htry2
    · unfold s_fmt_ioctl
      rw [hout]
      unfold v4l2_m2m_codec_s_output_fmt
      rw [hsfmt]
      simp [hdec]
    · simp [g_fmt_ioctl, v4l2_m2m_codec_g_output_fmt, hout, hdec, hpf]
  | V4L2_M2M_ENCODER =>
    have hout : V4L2_TYPE_IS_OUTPUT f.type = false := by
      rw [hdec] at hplane; simpa using hplane
    have htry2 : v4l2_m2m_codec_try_capture_fmt s.ctx f = some (0, f1) := by
      unfold v4l2_m2m_codec_try_capture_fmt
      rw [hdec]
      simpa using htry
    have hplane1 : (V4L2_TYPE_IS_OUTPUT f1.type ==
        (s.ctx.codec.type == v4l2_m2m_codec_type.V4L2_M2M_DECODER)) = true := by
      rw [hty, hdec]
      simpa using hout
    have hsfmt := s_fmt_success_eval s f v4l2_m2m_codec_try_capture_fmt f1 desc
      hbusy htry2 hplane1 hfind1
    refine ⟨f1,
      { s with
        ctx := { s.ctx with coded_fmt_desc := some desc, coded_fmt := f1 }
        m2m := { s.m2m with out_q_ctx :=
          { s.m2m.out_q_ctx with
            requires_requests := desc.requires_requests } } },
      ?_, hpf, hty, ?_, ?_⟩
    · unfold try_fmt_ioctl
      rw [hout]
      simpa using htry2
    · unfold s_fmt_ioctl
      rw [hout]
      unfold v4l2_m2m_codec_s_capture_fmt
      rw [hsfmt]
      simp [hdec]
    · simp [g_fmt_ioctl, v4l2_m2m_codec_g_capture_fmt, hout, hdec, hpf]

/-- C4 counterexample: format A (4CC 1) is registered, but its adjust hook
rewrites the candidate's 4CC to 2 (also registered). Try succeeds, set
succeeds, and get on the coded plane then reports 4CC 2, not 1 — the chain
as claimed fails without a hook precondition. -/
theorem C4_fourcc_roundtrip_cex :
    exCapsC4.coded_fmts.head? = some exDescC4A ∧
    exDescC4A.fourcc = 1 ∧
    exC4cand.pix.pixelformat = 1 ∧
    (v4l2_m2m_codec_try_output_fmt exC4ctx exC4cand).map (fun r => r.1) =
      some 0 ∧
    (v4l2_m2m_codec_s_output_fmt exC4state exC4cand).map
      (fun r => (r.1, (v4l2_m2m_codec_g_output_fmt r.2.ctx).pix.pixelformat)) =
      some (0, 2) ∧
    (2 : Nat) ≠ 1 :=
  ⟨rfl, rfl, rfl, rfl, rfl, by decide⟩

/-- C4 witness: the well-behaved decoder fixture (no hook, idle queue) runs
the try / set / get chain and reports the registered 4CC 1. -/
theorem C4_fourcc_roundtrip_witness :
    ∃ f1 s', try_fmt_ioctl exWstate.ctx exWcand = some (0, f1) ∧
      f1.pix.pixelformat = exWcand.pix.pixelformat ∧
      f1.type = exWcand.type ∧
      s_fmt_ioctl exWstate exWcand = some (0, s') ∧
      (g_fmt_ioctl s'.ctx exWcand.type).pix.pixelformat =
        exWcand.pix.pixelformat :=
  C4_fourcc_roundtrip exWstate exWcand exDescW exOpsPlain rfl rfl rfl rfl
    (by constructor)

/-- C5 (amended): start-streaming is a pure success (no callback consulted)
unless the queue carries the *coded* format for this codec type — the
output queue of a decoder or the *capture* queue of an encoder; when the
plane matches and a coded descriptor with an ops table is resolved, the
`start` callback's status is surfaced verbatim (absent callback: success).
The original claim's "output plane for this codec type" is wrong for
encoders, as the counterexample shows. -/
theorem C5_start_streaming_plane :
    ∀ (ctx : v4l2_m2m_codec_ctx) (t : v4l2_buf_type) (n : Nat),
      (((ctx.codec.type == .V4L2_M2M_DECODER) != V4L2_TYPE_IS_OUTPUT t) =
          true →
        v4l2_m2m_codec_start_streaming ctx t n = some 0) ∧
      (∀ (desc : v4l2_m2m_codec_coded_fmt_desc)
         (ops : v4l2_m2m_codec_coded_fmt_ops) (r : Int),
        ((ctx.codec.type == .V4L2_M2M_DECODER) != V4L2_TYPE_IS_OUTPUT t) =
          false →
        ctx.coded_fmt_desc = some desc →
        desc.ops = some ops →
        ops.start = some r →
        v4l2_m2m_codec_start_streaming ctx t n = some r) ∧
      (∀ (desc : v4l2_m2m_codec_coded_fmt_desc)
         (ops : v4l2_m2m_codec_coded_fmt_ops),
        ((ctx.codec.type == .V4L2_M2M_DECODER) != V4L2_TYPE_IS_OUTPUT t) =
          false →
        ctx.coded_fmt_desc = some desc →
        desc.ops = some ops →
        ops.start = none →
        v4l2_m2m_codec_start_streaming ctx t n = some 0) := by
  intro ctx t n
  refine ⟨?_, ?_, ?_⟩
  · intro hmis
    unfold v4l2_m2m_codec_start_streaming
    rw [hmis]
    rfl
  · intro desc ops r hmatch hdesc hops hstart
    unfold v4l2_m2m_codec_start_streaming
    rw [hmatch]
    simp only [hdesc, hops, hstart]
    rcases eq_or_ne r 0 with h0 | h0
    · subst h0
      simp
    · simp [h0]
  · intro desc ops hmatch hdesc hops hstart
    unfold v4l2_m2m_codec_start_streaming
    rw [hmatch]
    simp [hdesc, hops, hstart]

/-- C5 counterexample: on an encoder, the capture queue is not the output
plane, yet start-streaming there is not a no-op — it invokes the coded
format's `start` callback and surfaces its failure (-5). -/
theorem C5_start_streaming_plane_cex :
    exC5ctx.codec.type = .V4L2_M2M_ENCODER ∧
    V4L2_TYPE_IS_OUTPUT .videoCapture = false ∧
    v4l2_m2m_codec_start_streaming exC5ctx .videoCapture 0 = some (-5) ∧
    ((-5 : Int) ≠ 0) :=
  ⟨rfl, rfl, rfl, by decide⟩

/-- C5 witness: the failing-start encoder fixture surfaces -5 on its coded
(capture) plane. -/
theorem C5_start_streaming_plane_witness :
    v4l2_m2m_codec_start_streaming exC5ctx .videoCapture 0 = some (-5) :=
  (C5_start_streaming_plane exC5ctx .videoCapture 0).2.1
    { fourcc := 1, requires_requests := false, frmsize := none
      ctrls := some exCtrlsEmpty, ops := some exOpsStartErr }
    exOpsStartErr (-5) rfl rfl rfl rfl

/-- C6 (amended): frame-size enumeration accepts only index 0 and fails
with `-EINVAL` — not `-ENOENT` as the claim says — on a nonzero index, an
unknown 4CC, or a format with no declared constraint; on success it returns
the declared stepwise constraint with the stepwise type set. -/
theorem C6_enum_framesizes_errors :
    ∀ (codec : v4l2_m2m_codec) (fs : v4l2_frmsizeenum),
      (fs.index ≠ 0 →
        v4l2_m2m_codec_enum_framesizes codec fs = (-EINVAL, fs)) ∧
      (fs.index = 0 →
        v4l2_m2m_codec_find_coded_fmt_desc codec fs.pixel_format = none →
        v4l2_m2m_codec_enum_framesizes codec fs = (-EINVAL, fs)) ∧
      (∀ desc, fs.index = 0 →
        v4l2_m2m_codec_find_coded_fmt_desc codec fs.pixel_format =
          some desc →
        desc.frmsize = none →
        v4l2_m2m_codec_enum_framesizes codec fs = (-EINVAL, fs)) ∧
      (∀ desc z, fs.index = 0 →
        v4l2_m2m_codec_find_coded_fmt_desc codec fs.pixel_format =
          some desc →
        desc.frmsize = some z →
        v4l2_m2m_codec_enum_framesizes codec fs =
          (0, { fs with type := V4L2_FRMSIZE_TYPE_STEPWISE,
                        stepwise := z })) := by
  intro codec fs
  refine ⟨?_, ?_, ?_, ?_⟩
  · intro hidx
    unfold v4l2_m2m_codec_enum_framesizes
    simp [hidx]
  · intro hidx hfind
    unfold v4l2_m2m_codec_enum_framesizes
    simp [hidx, hfind]
  · intro desc hidx hfind hfrm
    unfold v4l2_m2m_codec_enum_framesizes
    simp [hidx, hfind, hfrm]
  · intro desc z hidx hfind hfrm
    unfold v4l2_m2m_codec_enum_framesizes
    simp [hidx, hfind, hfrm]

/-- C6 counterexample: 4CC 1 is registered but declares no constraint; the
enumeration at index 0 returns `-EINVAL`, which is not the `-ENOENT` the
claim names. -/
theorem C6_enum_framesizes_errors_cex :
    v4l2_m2m_codec_find_coded_fmt_desc exC6codec 1 = some exDescC6 ∧
    exDescC6.frmsize = none ∧
    exC6fs.index = 0 ∧
    (v4l2_m2m_codec_enum_framesizes exC6codec exC6fs).1 = -EINVAL ∧
    (-EINVAL : Int) ≠ -ENOENT :=
  ⟨rfl, rfl, rfl, rfl, by decide⟩

/-- C6 witness: with the constraint-declaring fixture, enumeration at index
0 returns the declared stepwise window. -/
theorem C6_enum_framesizes_errors_witness :
    v4l2_m2m_codec_enum_framesizes exC6codecW exC6fs =
      (0, { exC6fs with type := V4L2_FRMSIZE_TYPE_STEPWISE,
                        stepwise := exFrm }) :=
  (C6_enum_framesizes_errors exC6codecW exC6fs).2.2.2 exDescW exFrm rfl rfl
    rfl

/-- The presence loop succeeds exactly when every control of the table that
is both per-request and mandatory appears in the request's snapshot —
membership, so independent of the order the controls were supplied. -/
theorem request_ctrls_present_iff (hdl : List Nat)
    (l : List v4l2_m2m_codec_ctrl_desc) :
    request_ctrls_present hdl l = true ↔
      ∀ c ∈ l, c.per_request = true → c.mandatory = true →
        c.cfg.id ∈ hdl := by
  induction l with
  | nil => simp [request_ctrls_present]
  | cons c rest ih =>
    unfold request_ctrls_present
    rcases hpr : c.per_request <;> rcases hm : c.mandatory <;>
      simp [hpr, hm, ih, List.elem_iff]

/-- C3: request validation checks, in order: no attached buffer fails with
`-ENOENT`; more than one buffer fails with `-EINVAL`; exactly one buffer
but no bound control snapshot fails with `-ENOENT`; with a snapshot bound,
a missing mandatory per-request control of the active coded format fails
with `-ENOENT`, and when all such controls are present — in any order — the
call delegates to the underlying buffer validation and returns its
status. -/
theorem C3_request_validate_checks :
    ∀ (ctx : v4l2_m2m_codec_ctx) (req : media_request) (v : Int)
      (desc : v4l2_m2m_codec_coded_fmt_desc) (cs : v4l2_m2m_codec_ctrls),
      ctx.coded_fmt_desc = some desc →
      desc.ctrls = some cs →
      (req.bufs.length = 0 →
        v4l2_m2m_codec_request_validate (some ctx) req v = some (-ENOENT)) ∧
      (req.bufs.length > 1 →
        v4l2_m2m_codec_request_validate (some ctx) req v = some (-EINVAL)) ∧
      (req.bufs.length = 1 → req.hdl = none →
        v4l2_m2m_codec_request_validate (some ctx) req v = some (-ENOENT)) ∧
      (∀ hdl, req.bufs.length = 1 → req.hdl = some hdl →
        ((∃ c ∈ cs.ctrls, c.per_request = true ∧ c.mandatory = true ∧
            c.cfg.id ∉ hdl) →
          v4l2_m2m_codec_request_validate (some ctx) req v =
            some (-ENOENT)) ∧
        ((∀ c ∈ cs.ctrls, c.per_request = true → c.mandatory = true →
            c.cfg.id ∈ hdl) →
          v4l2_m2m_codec_request_validate (some ctx) req v = some v)) := by
  intro ctx req v desc cs hdesc hcs
  refine ⟨?_, ?_, ?_, ?_⟩
  · intro hlen
    rw [List.length_eq_zero] at hlen
    unfold v4l2_m2m_codec_request_validate vb2_request_get_buf
    rw [hlen]
    rfl
  · intro hlen
    rcases req with ⟨bufs, hdl⟩
    match bufs, hlen with
    | a :: b :: rest, _ =>
      unfold v4l2_m2m_codec_request_validate vb2_request_get_buf
        vb2_request_buffer_cnt
      simp
  · intro hlen hhdl
    rcases req with ⟨bufs, hdl⟩
    simp only at hhdl
    subst hhdl
    rw [List.length_eq_one] at hlen
    obtain ⟨a, ha⟩ := hlen
    subst ha
    unfold v4l2_m2m_codec_request_validate vb2_request_get_buf
      vb2_request_buffer_cnt
    rfl
  · intro hdl hlen hhdl
    rcases req with ⟨bufs, rhdl⟩
    simp only at hhdl
    subst hhdl
    rw [List.length_eq_one] at hlen
    obtain ⟨a, ha⟩ := hlen
    subst ha
    constructor
    · intro hmiss
      have hpres : request_ctrls_present hdl cs.ctrls = false := by
        rcases hp : request_ctrls_present hdl cs.ctrls
        · rfl
        · rw [request_ctrls_present_iff] at hp
          obtain ⟨c, hcmem, hcp, hcm, hcnot⟩ := hmiss
          exact absurd (hp c hcmem hcp hcm) hcnot
      unfold v4l2_m2m_codec_request_validate vb2_request_get_buf
        vb2_request_buffer_cnt
      simp [hdesc, hcs, hpres]
    · intro hall
      have hpres : request_ctrls_present hdl cs.ctrls = true :=
        (request_ctrls_present_iff hdl cs.ctrls).mpr hall
      unfold v4l2_m2m_codec_request_validate vb2_request_get_buf
        vb2_request_buffer_cnt
      simp [hdesc, hcs, hpres]

/-- C3 witness: the decoder fixture with the mandatory per-request control
100 — the scenario with the control present delegates (status 0); the
theorem instance also carries the failure arms for malformed requests. -/
theorem C3_request_validate_checks_witness :
    (exReqOk.bufs.length = 0 →
      v4l2_m2m_codec_request_validate (some exC3ctx) exReqOk 0 =
        some (-ENOENT)) ∧
    (exReqOk.bufs.length > 1 →
      v4l2_m2m_codec_request_validate (some exC3ctx) exReqOk 0 =
        some (-EINVAL)) ∧
    (exReqOk.bufs.length = 1 → exReqOk.hdl = none →
      v4l2_m2m_codec_request_validate (some exC3ctx) exReqOk 0 =
        some (-ENOENT)) ∧
    (∀ hdl, exReqOk.bufs.length = 1 → exReqOk.hdl = some hdl →
      ((∃ c ∈ exCtrlsDecode.ctrls, c.per_request = true ∧
          c.mandatory = true ∧ c.cfg.id ∉ hdl) →
        v4l2_m2m_codec_request_validate (some exC3ctx) exReqOk 0 =
          some (-ENOENT)) ∧
      ((∀ c ∈ exCtrlsDecode.ctrls, c.per_request = true →
          c.mandatory = true → c.cfg.id ∈ hdl) →
        v4l2_m2m_codec_request_validate (some exC3ctx) exReqOk 0 =
          some 0)) :=
  C3_request_validate_checks exC3ctx exReqOk 0 exDescC3 exCtrlsDecode rfl rfl

/-- The drain loop always ends with an empty pending list. -/
theorem queue_cleanup_loop_pending (l : List vb2_v4l2_buffer)
    (c : List Nat) (d : List (vb2_v4l2_buffer × Nat)) (st : Nat) :
    (queue_cleanup_loop l c d st).1 = [] := by
  induction l generalizing c d with
  | nil => rfl
  | cons b rest ih => exact ih _ _

/-- Buffers already marked done stay marked through the drain loop. -/
theorem queue_cleanup_loop_done_mono (l : List vb2_v4l2_buffer)
    (c : List Nat) (d : List (vb2_v4l2_buffer × Nat)) (st : Nat)
    (x : vb2_v4l2_buffer × Nat) (hx : x ∈ d) :
    x ∈ (queue_cleanup_loop l c d st).2.2 := by
  induction l generalizing c d with
  | nil => exact hx
  | cons b rest ih => exact ih _ _ (List.mem_append_left _ hx)

/-- Requests already completed stay completed through the drain loop. -/
theorem queue_cleanup_loop_completed_mono (l : List vb2_v4l2_buffer)
    (c : List Nat) (d : List (vb2_v4l2_buffer × Nat)) (st : Nat)
    (x : Nat) (hx : x ∈ c) :
    x ∈ (queue_cleanup_loop l c d st).2.1 := by
  induction l generalizing c d with
  | nil => exact hx
  | cons b rest ih =>
    refine ih _ _ ?_
    unfold v4l2_ctrl_request_complete
    cases b.req
    · exact hx
    · exact List.mem_append_left _ hx

/-- Every pending buffer ends marked done with the supplied terminal
state. -/
theorem queue_cleanup_loop_done_mem (l : List vb2_v4l2_buffer) (st : Nat) :
    ∀ (c : List Nat) (d : List (vb2_v4l2_buffer × Nat)),
      ∀ b ∈ l, (b, st) ∈ (queue_cleanup_loop l c d st).2.2 := by
  induction l with
  | nil => intro c d b hb; cases hb
  | cons a rest ih =>
    intro c d b hb
    rw [List.mem_cons] at hb
    rcases hb with rfl | hb
    · exact queue_cleanup_loop_done_mono rest _ _ st _
        (List.mem_append_right _ (by simp))
    · show (b, st) ∈ (queue_cleanup_loop rest
        (v4l2_ctrl_request_complete c a.req) (d ++ [(a, st)]) st).2.2
      exact ih _ _ b hb

/-- Every pending buffer's bound request ends completed. -/
theorem queue_cleanup_loop_completed_mem (l : List vb2_v4l2_buffer)
    (st : Nat) :
    ∀ (c : List Nat) (d : List (vb2_v4l2_buffer × Nat)),
      ∀ b ∈ l, ∀ r, b.req = some r →
        r ∈ (queue_cleanup_loop l c d st).2.1 := by
  induction l with
  | nil => intro c d b hb; cases hb
  | cons a rest ih =>
    intro c d b hb r hr
    rw [List.mem_cons] at hb
    rcases hb with rfl | hb
    · refine queue_cleanup_loop_completed_mono rest _ _ st _ ?_
      unfold v4l2_ctrl_request_complete
      rw [hr]
      exact List.mem_append_right _ (by simp)
    · show r ∈ (queue_cleanup_loop rest
        (v4l2_ctrl_request_complete c a.req) (d ++ [(a, st)]) st).2.1
      exact ih _ _ b hb r hr

/-- C7: queue cleanup fully drains the plane the queue type selects — the
plane's ready list is empty on return, every previously attached buffer of
that plane is marked done with the supplied terminal state, and every such
buffer's bound control request has been completed — for any prior sequence
of enqueues (any starting list). -/
theorem C7_queue_cleanup_drains :
    ∀ (s : m2m_buf_state) (qo : Bool) (st : Nat),
      (if qo then (v4l2_m2m_codec_queue_cleanup s qo st).src_bufs
       else (v4l2_m2m_codec_queue_cleanup s qo st).dst_bufs) = [] ∧
      ∀ b ∈ (if qo then s.src_bufs else s.dst_bufs),
        ((b, st) ∈ (v4l2_m2m_codec_queue_cleanup s qo st).done_bufs ∧
         ∀ r, b.req = some r →
           r ∈ (v4l2_m2m_codec_queue_cleanup s qo st).completed_reqs) := by
  intro s qo st
  cases qo with
  | true =>
    refine ⟨queue_cleanup_loop_pending _ _ _ _, ?_⟩
    intro b hb
    exact ⟨queue_cleanup_loop_done_mem _ st _ _ b hb,
      fun r hr => queue_cleanup_loop_completed_mem _ st _ _ b hb r hr⟩
  | false =>
    refine ⟨queue_cleanup_loop_pending _ _ _ _, ?_⟩
    intro b hb
    exact ⟨queue_cleanup_loop_done_mem _ st _ _ b hb,
      fun r hr => queue_cleanup_loop_completed_mem _ st _ _ b hb r hr⟩

/-- C7 witness: cleaning the output plane of the two-buffer fixture with
terminal state 2. -/
theorem C7_queue_cleanup_drains_witness :
    (if true then (v4l2_m2m_codec_queue_cleanup exBufState true 2).src_bufs
     else (v4l2_m2m_codec_queue_cleanup exBufState true 2).dst_bufs) = [] ∧
    ∀ b ∈ (if true then exBufState.src_bufs else exBufState.dst_bufs),
      ((b, 2) ∈ (v4l2_m2m_codec_queue_cleanup exBufState true 2).done_bufs ∧
       ∀ r, b.req = some r →
         r ∈ (v4l2_m2m_codec_queue_cleanup exBufState true 2).completed_reqs) :=
  C7_queue_cleanup_drains exBufState true 2

/-- C8: after resetting the coded format (which selects `coded_fmts[0]` and
derives defaults from its constraint) and then the decoded format, the
decoded format's width and height sit inside the coded format's declared
frame-size window — they equal the declared minima, hence never exceed the
maxima of a well-formed constraint. -/
theorem C8_reset_respects_bounds :
    ∀ (ctx ctx1 ctx2 : v4l2_m2m_codec_ctx)
      (desc : v4l2_m2m_codec_coded_fmt_desc) (z : v4l2_frmsize_stepwise),
      v4l2_m2m_codec_reset_coded_fmt ctx = some ctx1 →
      v4l2_m2m_codec_reset_decoded_fmt ctx1 = some ctx2 →
      ctx1.coded_fmt_desc = some desc →
      desc.frmsize = some z →
      z.min_width ≤ z.max_width →
      z.min_height ≤ z.max_height →
      z.min_width ≤ ctx2.decoded_fmt.pix.width ∧
      ctx2.decoded_fmt.pix.width ≤ z.max_width ∧
      z.min_height ≤ ctx2.decoded_fmt.pix.height ∧
      ctx2.decoded_fmt.pix.height ≤ z.max_height := by
  intro ctx ctx1 ctx2 desc z h1 h2 hdesc hfrm hw hh
  unfold v4l2_m2m_codec_reset_coded_fmt at h1
  split at h1
  · exact absurd h1 (by simp)
  · split at h1
    · exact absurd h1 (by simp)
    · rename_i desc0 hhead ops hops
      simp only [Option.some.injEq] at h1
      subst h1
      simp only at hdesc
      simp only [Option.some.injEq] at hdesc
      subst hdesc
      unfold v4l2_m2m_codec_reset_decoded_fmt at h2
      simp only [Option.isNone_some, Bool.false_eq_true, if_false] at h2
      split at h2
      · exact absurd h2 (by simp)
      · rename_i ddesc hdhead
        rw [hfrm] at h2
        simp only [Option.some.injEq] at h2
        subst h2
        simp [v4l2_fill_pixfmt, hw, hh]

/-- C8 witness: the reset pair on the decoder fixture lands the decoded
format on 64x64, inside the declared 64..1920 x 64..1088 window. -/
theorem C8_reset_respects_bounds_witness :
    exFrm.min_width ≤ exC8ctx2.decoded_fmt.pix.width ∧
    exC8ctx2.decoded_fmt.pix.width ≤ exFrm.max_width ∧
    exFrm.min_height ≤ exC8ctx2.decoded_fmt.pix.height ∧
    exC8ctx2.decoded_fmt.pix.height ≤ exFrm.max_height :=
  C8_reset_respects_bounds exC8ctx exC8ctx1 exC8ctx2 exDescW exFrm rfl rfl
    rfl rfl (by decide) (by decide)

/-- Folding the sizing step from a dead (null-dereferenced) accumulator
never recovers. -/
theorem init_ctrls_nctrls_go_none (l : List v4l2_m2m_codec_coded_fmt_desc) :
    l.foldl
      (fun acc d =>
        match acc, d.ctrls with
        | some n, some cs => some (n + cs.ctrls.length)
        | _, _ => none)
      none = none := by
  induction l with
  | nil => rfl
  | cons d rest ih => exact ih

/-- The sizing fold is defined exactly when every descriptor's `ctrls`
pointer is non-null. -/
theorem init_ctrls_nctrls_go_isSome (l : List v4l2_m2m_codec_coded_fmt_desc) :
    ∀ (n : Nat),
      (l.foldl
        (fun acc d =>
          match acc, d.ctrls with
          | some n, some cs => some (n + cs.ctrls.length)
          | _, _ => none)
        (some n)).isSome = true ↔
      ∀ d ∈ l, d.ctrls.isSome = true := by
  induction l with
  | nil => simp
  | cons d rest ih =>
    intro n
    cases hc : d.ctrls with
    | none =>
      simp only [List.foldl_cons, hc]
      rw [init_ctrls_nctrls_go_none]
      simp [hc]
    | some cs =>
      simp only [List.foldl_cons, hc]
      rw [ih]
      simp [hc]

/-- C10: the control-registry sizing step of context initialization is
well-defined exactly when every coded format supplies a non-null control
set; and registration validation does not enforce that precondition — a
capability table with a null `ctrls` pointer but a valid ops table passes
`v4l2_m2m_codec_init` yet leaves the sizing step undefined. -/
theorem C10_init_ctrls_null_ctrls :
    (∀ caps : v4l2_m2m_codec_caps,
      (v4l2_m2m_codec_init_ctrls_nctrls caps).isSome = true ↔
        ∀ d ∈ caps.coded_fmts, d.ctrls.isSome = true) ∧
    (∃ caps : v4l2_m2m_codec_caps,
      v4l2_m2m_codec_init caps true true = 0 ∧
      v4l2_m2m_codec_init_ctrls_nctrls caps = none) := by
  constructor
  · intro caps
    exact init_ctrls_nctrls_go_isSome caps.coded_fmts 0
  · exact ⟨exCapsC10, rfl, rfl⟩

/-- C10 witness: the null-ctrls fixture instantiates the sizing
characterisation. -/
theorem C10_init_ctrls_null_ctrls_witness :
    (v4l2_m2m_codec_init_ctrls_nctrls exCapsC10).isSome = true ↔
      ∀ d ∈ exCapsC10.coded_fmts, d.ctrls.isSome = true :=
  C10_init_ctrls_null_ctrls.1 exCapsC10
